import Mathlib

/-!
Shallow embedding of the task-execution and resource-adaptive scheduling
subsystem of abipy (`abipy/flowtk/tasks.py` and `abipy/flowtk/utils.py`).

Conventions used throughout:
* Python machine values are embedded as `Int`/`Nat`, Python floats that are
  only compared and combined by field arithmetic as `Rat`.
* Stateful methods become explicit state-passing functions.  A method that can
  raise returns `Except String _` (the `String` is the exception message); a
  raise happening before any mutation leaves the caller's state unchanged,
  exactly as in CPython.
* Wall-clock time is threaded as an explicit `now : Int` parameter
  (seconds); filesystem observations are gathered in environment records.
-/

deriving instance DecidableEq for Except

namespace Abipy

/-- Rational addition through the normalizing constructor `Rat.divInt`
(this toolchain marks `Rat.add` and friends `@[irreducible]`, which would
block kernel evaluation of concrete program runs; these are the standard
cross-multiplication formulas and denote the same rational numbers). -/
def qadd (a b : Rat) : Rat := Rat.divInt (a.num * b.den + b.num * a.den) (a.den * b.den)

/-- Rational subtraction, cf. `qadd`. -/
def qsub (a b : Rat) : Rat := Rat.divInt (a.num * b.den - b.num * a.den) (a.den * b.den)

/-- Rational multiplication, cf. `qadd`. -/
def qmul (a b : Rat) : Rat := Rat.divInt (a.num * b.num) (a.den * b.den)

/-- Rational division, cf. `qadd` (zero denominator yields 0, a case the
embedded code never exercises). -/
def qdiv (a b : Rat) : Rat := Rat.divInt (a.num * b.den) (a.den * b.num)

/-- Task status.  Modelled from the spec: the `Status` class lives in
`abipy/flowtk/nodes.py`, which is not part of the sources under study; the
spec fixes the eleven states and their total order
`INIT < LOCKED < READY < SUB < RUN < DONE < ABICRITICAL < QCRITICAL < ERROR
< UNCONVERGED < OK`. -/
inductive Status where
  | S_INIT
  | S_LOCKED
  | S_READY
  | S_SUB
  | S_RUN
  | S_DONE
  | S_ABICRITICAL
  | S_QCRITICAL
  | S_ERROR
  | S_UNCONVERGED
  | S_OK
  deriving DecidableEq, Repr

/-- Render a status the way its history messages display it. -/
def Status.show : Status → String
  | .S_INIT => "Initialized"
  | .S_LOCKED => "Locked"
  | .S_READY => "Ready"
  | .S_SUB => "Submitted"
  | .S_RUN => "Running"
  | .S_DONE => "Done"
  | .S_ABICRITICAL => "AbiCritical"
  | .S_QCRITICAL => "QCritical"
  | .S_ERROR => "Error"
  | .S_UNCONVERGED => "Unconverged"
  | .S_OK => "Completed"

/-- `TaskDateTimes` (tasks.py:1324-1352): the per-run timestamps.
`init` is set at construction; `submission`, `start` and `end` start out
unset (`None`). Times are seconds as `Int`. -/
structure TaskDateTimes where
  init : Int
  submission : Option Int := none
  start : Option Int := none
  «end» : Option Int := none
  deriving DecidableEq, Repr

/-- `TaskDateTimes.reset` (tasks.py:1350-1352).  The Python body is
`self = self.__class__()`: it rebinds the *local variable* `self` to a fresh
instance and returns; the object on which the method was invoked is left
untouched.  The faithful state-passing translation is therefore the
identity. -/
def TaskDateTimes.reset (dt : TaskDateTimes) : TaskDateTimes := dt

/-- What `TaskDateTimes.reset`'s docstring ("Reinitialize the counters.")
says it should do: clear the per-run timestamps back to their unset values,
as a fresh `TaskDateTimes.__init__` does (tasks.py:1335-1337).  Stated from
the spec for comparison with `TaskDateTimes.reset`. -/
def TaskDateTimes.resetSpec (_dt : TaskDateTimes) (now : Int) : TaskDateTimes :=
  { init := now, submission := none, start := none, «end» := none }

/-- Queue errors reported by the scheduler-error parsers
(`abipy/flowtk/scheduler_error_parsers.py`, external to this core): the
classes dispatched on in `fix_queue_critical` (tasks.py:3177, 3214, 3227,
3263). -/
inductive QueueError where
  | NodeFailure (nodes : Option (List Nat))
  | MemoryCancel
  | TimeCancel
  | Other (name : String)
  deriving DecidableEq, Repr

/-- The mutable state of a `Task` (tasks.py:1394-1453) relevant to the
lifecycle claims.  `finalized` is a `Node` attribute initialised to `False`
(nodes.py, not under study; the spec calls it the "finalized flag... at most
once per Task instance").  `history` holds the chronological record written
through `self.history.info(...)`. -/
structure Task where
  status : Status
  datetimes : TaskDateTimes
  finalized : Bool := false
  num_restarts : Nat := 0
  queue_errors : List QueueError := []
  abi_errors : List String := []
  mem_scales : Bool := true
  load_scales : Bool := true
  /-- `self.gc is not None and self.gc.policy == "task"` (tasks.py:1975). -/
  gc_policy_task : Bool := false
  history : List String := []
  deriving DecidableEq, Repr

namespace Task

/-- Result of one `set_status` call.  `ret` is the status returned by the
method; `msg` echoes the (possibly truncated) message the call recorded;
`hookRan` records whether the finalization hook `_on_ok` was executed during
this call. -/
structure SetStatusResult where
  task : Task
  ret : Status
  msg : String
  hookRan : Bool
  deriving DecidableEq, Repr

/-- `Task._on_ok` (tasks.py:1672-1679): fix output-file names (a pure
filesystem rename, not part of the modelled state), latch `finalized`, and
run the family post-processing `on_ok`.  The base-class `on_ok`
(tasks.py:1681-1691) only builds a results dictionary. -/
def onOkHook (t : Task) : Task :=
  { t with finalized := true }

/-- `Task.set_status` (tasks.py:1908-1981).  `now` is the current wall-clock
time used for `datetime.datetime.now()`.  Raises (returns `.error`) when the
task is locked or the target status is `S_LOCKED`, before any mutation. -/
def recordTransition (t : Task) (status : Status) (msg : String) (now : Int) : Task :=
  let changed := status ≠ t.status
  let t := { t with status := status }
  -- Set datetimes.start when the task enters S_RUN (tasks.py:1936-1939)
  let t := if status = Status.S_RUN ∧ t.datetimes.start = none then
      { t with datetimes := { t.datetimes with start := some now } } else t
  -- Add new entry to history only if the status has changed (tasks.py:1941-1959)
  if changed then
    if status = Status.S_SUB then
      { t with datetimes := { t.datetimes with submission := some now },
               history := t.history ++ ["Submitted with MPI=.., Omp=.., Memproc=.. [GB] " ++ msg ++ " "] }
    else if status = Status.S_OK then
      { t with history := t.history ++ ["Task completed " ++ msg] }
    else if status = Status.S_ABICRITICAL then
      { t with history := t.history ++ ["Status set to S_ABI_CRITICAL due to: " ++ msg] }
    else
      { t with history := t.history ++ ["Status changed to " ++ status.show ++ ". msg: " ++ msg] }
  else t

def set_status (t : Task) (status : Status) (msg : String) (now : Int) :
    Except String SetStatusResult :=
  -- truncate string if it's long (tasks.py:1917-1919)
  let msg := if msg.length > 2000 then msg.take 2000 ++ "\n... snip ...\n" else msg
  -- Locked files must be explicitly unlocked (tasks.py:1922-1926)
  if t.status = Status.S_LOCKED ∨ status = Status.S_LOCKED then
    .error ("Locked files must be explicitly unlocked before calling set_status but\n" ++
      "task.status = " ++ t.status.show ++ ", input status = " ++ status.show)
  else
    let t := t.recordTransition status msg now
    -- Callbacks (tasks.py:1965-1979).  `_on_done` only renames output files.
    if status = Status.S_OK then
      let hook := !t.finalized
      let t := if t.finalized then t else t.onOkHook
      -- `_on_ok` of the base Task never changes the status, so the
      -- `self.status == self.S_OK` re-check (tasks.py:1974) succeeds and the
      -- gc cleanup / signal emission (pure collaborator effects) fire.
      .ok { task := t, ret := status, msg := msg, hookRan := hook }
    else
      .ok { task := t, ret := status, msg := msg, hookRan := false }

/-- `Task.lock` (tasks.py:1887-1893). -/
def lock (t : Task) : Except String Task :=
  if t.status ≠ Status.S_INIT then
    .error ("Trying to lock a task with status " ++ t.status.show)
  else
    .ok { t with status := Status.S_LOCKED,
                 history := t.history ++ ["Locked by node <source_node>"] }

end Task

/-- The outcome of `self.get_event_report()` as far as `check_status`
consumes it (tasks.py:2032-2051): whether the run completed, the Error/Bug
events found (`report.errors`), the timestamps read from the log, and the
result of `report.filter_types(self.CRITICAL_EVENTS)` (empty for the base
`Task`, whose `CRITICAL_EVENTS = []`, tasks.py:1405). -/
structure EventReport where
  run_completed : Bool
  errors : List String := []
  start_datetime : Option Int := none
  end_datetime : Option Int := none
  critical : List String := []
  deriving DecidableEq, Repr

/-- Filesystem/backend observations consumed by `Task.check_status`
(tasks.py:1983-2147).  A file's `getsize` "is 0 if the file is empty or it
does not exist" (tasks.py:2013), so each file is modelled as an existence
flag plus its content; `report = .error e` models `get_event_report`
raising.  `frozen_timeout` comes from `self.manager.policy.frozen_timeout`. -/
structure TaskEnv where
  returncode : Int := 0
  mpiabort_exists : Bool := false
  stderr_exists : Bool := false
  stderr_content : String := ""
  qerr_exists : Bool := false
  qerr_content : String := ""
  qout_exists : Bool := false
  qout_content : String := ""
  output_exists : Bool := false
  report : Except String (Option EventReport) := .ok none
  output_mtime : Int := 0
  now : Int := 0
  frozen_timeout : Int := 0

/-- `File.getsize` of a modelled file. -/
def fsize (exists_ : Bool) (content : String) : Nat :=
  if exists_ then content.length else 0

/-- The message recorded when a task is declared frozen
(tasks.py:2139): `"Task seems to be frozen, last change more than %s [s]
ago" % self.manager.policy.frozen_timeout`. -/
def frozenMsg (timeout : Int) : String :=
  "Task seems to be frozen, last change more than " ++ (toString timeout ++ " [s] ago")

namespace Task

/-- `Task.check_status` (tasks.py:1983-2147), the status-derivation rules in
source order.  Note that the guard
`if self.status in black_list: return self.status` for the
`(S_LOCKED, S_ERROR)` black list is *commented out* in the source
(tasks.py:2000-2001), so no early return happens for locked or errored
tasks; the translation reflects that.  The disabled section 7
(tasks.py:2086-2121) is dead code and is omitted. -/
def check_status_tail (env : TaskEnv) (t : Task) : Except String SetStatusResult :=
  let err_msg : Option String :=
    if fsize env.stderr_exists env.stderr_content ≠ 0 then some env.stderr_content else none
  -- 6) No output at all: the job is still in the queue (tasks.py:2077-2081)
  if ¬env.output_exists ∧ ¬env.stderr_exists ∧ ¬env.qerr_exists then
    .ok { task := t, ret := t.status, msg := "", hookRan := false }
  else
    -- 8) err files nonempty but unidentified: only a history warning (tasks.py:2127-2129)
    let t := match err_msg with
      | some s => { t with history := t.history ++ ["Found error message:\n " ++ s] }
      | none => t
    -- Check time of last modification (tasks.py:2136-2140)
    if env.output_exists ∧ env.now - env.output_mtime > env.frozen_timeout then
      t.set_status Status.S_ERROR (frozenMsg env.frozen_timeout) env.now
    else
      t.set_status Status.S_RUN
        "final option: nothing seems to be wrong, the job must still be running" env.now

def check_status (env : TaskEnv) (t : Task) : Except String SetStatusResult :=
  -- 2) Check the returncode of the job script (tasks.py:2004-2006)
  if env.returncode ≠ 0 then
    t.set_status Status.S_QCRITICAL
      ("job.sh return code: " ++ toString env.returncode ++
       "\nPerhaps the job was not submitted properly?") env.now
  -- If we have an abort file produced by Abinit (tasks.py:2009-2010)
  else if env.mpiabort_exists then
    t.set_status Status.S_ABICRITICAL "Found ABINIT abort file" env.now
  else
    let err_msg : Option String :=
      if fsize env.stderr_exists env.stderr_content ≠ 0 then some env.stderr_content else none
    let qerr_info : Option String :=
      if fsize env.qerr_exists env.qerr_content ≠ 0 then some env.qerr_content else none
    -- Start to check ABINIT status if the output file has been created (tasks.py:2031)
    if env.output_exists then
      match env.report with
      | .error exc =>
        t.set_status Status.S_ABICRITICAL
          ("<task> exception while parsing event_report:\n" ++ exc) env.now
      | .ok none =>
        t.set_status Status.S_ERROR "Got None report!" env.now
      | .ok (some report) =>
        if report.run_completed then
          -- Here we set the correct timing data reported by Abinit (tasks.py:2042-2044)
          let t := { t with datetimes :=
            { t.datetimes with start := report.start_datetime, «end» := report.end_datetime } }
          if report.critical ≠ [] then
            t.set_status Status.S_UNCONVERGED
              "status set to UNCONVERGED based on abiout" env.now
          else
            t.set_status Status.S_OK "status set to OK based on abiout" env.now
        else if report.errors ≠ [] then
          let t := { t with abi_errors := t.abi_errors ++ report.errors }
          t.set_status Status.S_ABICRITICAL
            (String.intercalate "\n" report.errors) env.now
        -- 5) (tasks.py:2070-2074)
        else if env.stderr_exists ∧ err_msg = none ∧ env.qerr_exists ∧ qerr_info = none then
          t.set_status Status.S_RUN
            "there is output and no errors: job still seems to be running" env.now
        else
          check_status_tail env t
    else
      check_status_tail env t

/-- `Task.unlock` (tasks.py:1895-1906): refuse unless locked, set the status
to `S_READY`, optionally run `check_status` (whose status derivation then
starts from `S_READY`), and record the unlock in the history. -/
def unlock (env : TaskEnv) (t : Task) (checkStatus : Bool := true) :
    Except String Task :=
  if t.status ≠ Status.S_LOCKED then
    .error ("Trying to unlock a task with status " ++ t.status.show)
  else
    let t := { t with status := Status.S_READY }
    match (if checkStatus then (check_status env t).map (·.task) else .ok t) with
    | .error e => .error e
    | .ok t => .ok { t with history := t.history ++ ["Unlocked by <source_node>"] }

end Task

/-- The part of the working directory `reset_from_scratch`
(tasks.py:3086-3122) touches.  The five per-run files have the fixed
basenames set in `set_workdir` (tasks.py:1476-1492): `run.abo`, `run.log`,
`run.err`, `queue.qout`, `queue.qerr`; `__startlock__` is the start-lock
marker.  `reset_dir = some c` means the `_reset` subfolder exists and its
`_counter` file holds `c`; `reset_files` lists the basenames stored in it. -/
structure ResetFS where
  output_file : Bool := false
  log_file : Bool := false
  stderr_file : Bool := false
  qout_file : Bool := false
  qerr_file : Bool := false
  reset_dir : Option Nat := none
  reset_files : List String := []
  start_lock : Bool := false
  deriving DecidableEq, Repr

namespace Task

/-- `AbinitTask.reset_from_scratch` (tasks.py:3086-3122): move the previous
run's output/log/stderr/queue files into the `_reset` subfolder with the
reset counter appended to their names, bump and persist the counter, remove
the start-lock marker, call `datetimes.reset()` (see
`TaskDateTimes.reset`), and finish through `Task._restart(submit=False)`
(tasks.py:1709-1734): `set_status(S_READY, "Restarted on ...")`, increment
`num_restarts`, `datetimes.reset()` again, remove the start lock again.
The third component carries the exception message when `set_status` raised
(the file moves have already happened by then, as in the source). -/
def reset_from_scratch (t : Task) (fs : ResetFS) (now : Int) :
    Task × ResetFS × Option String :=
  let num_reset := match fs.reset_dir with
    | none => 1
    | some c => c + 1
  let suffix := "_" ++ toString num_reset
  let moved :=
    (if fs.output_file then ["run.abo" ++ suffix] else []) ++
    (if fs.log_file then ["run.log" ++ suffix] else []) ++
    (if fs.stderr_file then ["run.err" ++ suffix] else []) ++
    (if fs.qout_file then ["queue.qout" ++ suffix] else []) ++
    (if fs.qerr_file then ["queue.qerr" ++ suffix] else [])
  let fs := { fs with output_file := false, log_file := false, stderr_file := false,
                      qout_file := false, qerr_file := false,
                      reset_dir := some num_reset,
                      reset_files := fs.reset_files ++ moved,
                      start_lock := false }
  let t := { t with datetimes := t.datetimes.reset }
  -- Task._restart(submit=False)
  match t.set_status Status.S_READY ("Restarted on " ++ toString now) now with
  | .error e => (t, fs, some e)
  | .ok r =>
    let t := r.task
    let t := { t with num_restarts := t.num_restarts + 1,
                      history := t.history ++
                        ["Restarted, num_restarts " ++ toString (t.num_restarts + 1)],
                      datetimes := t.datetimes.reset }
    (t, { fs with start_lock := false }, none)

end Task

/-- Outcomes of the `TaskManager` resource-escalation primitives
(tasks.py:1052-1100): each either succeeds (mutating the underlying
qadapter, outside the modelled state) or raises `ManagerIncreaseError`. -/
structure Manager where
  ncpus_ok : Bool
  mem_ok : Bool
  time_ok : Bool
  resources_ok : Bool
  exclude_ok : Bool
  deriving DecidableEq, Repr

/-- One observable step performed by `fix_queue_critical`: a manager
escalation attempt, a task hook, a `reset_from_scratch`, or a `set_status`
call with its target and message. -/
inductive FixStep where
  | incResources
  | incNcpus
  | incMem
  | reduceMem
  | incTime
  | speedUp
  | excludeNodes
  | reset
  | setSt (s : Status) (msg : String)
  deriving DecidableEq, Repr

/-- Result of `fix_queue_critical`: final task and filesystem state, the
ordered trace of steps attempted, and the exception raised, if any
(`FixQueueCriticalError`, or a propagated `set_status` error). -/
structure FixOut where
  task : Task
  fs : ResetFS
  trace : List FixStep
  raised : Option String
  deriving DecidableEq, Repr

namespace Task

/-- The `try: increase; reset_from_scratch; set_status(READY, msg); return`
`except ...IncreaseError: history.warning(warnMsg)` pattern repeated inside
`fix_queue_critical` (tasks.py:3231-3256, 3263-3291).  `ok_` tells whether
the escalation primitive succeeds; `.inl` is a `return` from the whole
function, `.inr` the fall-through with the warning recorded. -/
def tryFix (ok_ : Bool) (step : FixStep) (msg warnMsg : String) (t : Task)
    (fs : ResetFS) (trace : List FixStep) (now : Int) :
    FixOut ⊕ (Task × List FixStep) :=
  if ok_ then
    match reset_from_scratch t fs now with
    | (t, fs, some e) => .inl ⟨t, fs, trace ++ [step, .reset], some e⟩
    | (t, fs, none) =>
      match t.set_status Status.S_READY msg now with
      | .error e => .inl ⟨t, fs, trace ++ [step, .reset], some e⟩
      | .ok r => .inl ⟨r.task, fs, trace ++ [step, .reset, .setSt Status.S_READY msg], none⟩
  else
    .inr ({ t with history := t.history ++ [warnMsg] }, trace ++ [step])

/-- The `for error in self.queue_errors` loop of `fix_queue_critical`
(tasks.py:3211-3301).  `reduceRaises`/`speedUpRaises` tell whether the
task-family hooks `reduce_memory_demand`/`speed_up` raise
`DecreaseDemandsError` (the base-class hooks, tasks.py:2149-2163, return
`False` without raising). -/
def fixLoop (mgr : Manager) (reduceRaises speedUpRaises : Bool) (now : Int) :
    Task → ResetFS → List FixStep → List QueueError → FixOut
  | t, fs, trace, [] => ⟨t, fs, trace, none⟩
  | t, fs, trace, e :: rest =>
    match e with
    | .NodeFailure nodes =>
      match nodes with
      | some _ =>
        -- if the problematic node is known, exclude it (tasks.py:3216-3222);
        -- any exception inside the try block becomes FixQueueCriticalError
        if mgr.exclude_ok then
          match reset_from_scratch t fs now with
          | (t, fs, some _) => ⟨t, fs, trace ++ [.excludeNodes, .reset], some "FixQueueCriticalError"⟩
          | (t, fs, none) =>
            match t.set_status Status.S_READY "excluding nodes" now with
            | .error _ => ⟨t, fs, trace ++ [.excludeNodes, .reset], some "FixQueueCriticalError"⟩
            | .ok r =>
              fixLoop mgr reduceRaises speedUpRaises now r.task fs
                (trace ++ [.excludeNodes, .reset, .setSt Status.S_READY "excluding nodes"]) rest
        else
          ⟨t, fs, trace ++ [.excludeNodes], some "FixQueueCriticalError"⟩
      | none =>
        match t.set_status Status.S_ERROR "Node error but no node identified." now with
        | .error e2 => ⟨t, fs, trace, some e2⟩
        | .ok r =>
          ⟨r.task, fs, trace ++ [.setSt Status.S_ERROR "Node error but no node identified."],
            some "FixQueueCriticalError"⟩
    | .MemoryCancel =>
      -- tasks.py:3227-3261
      let afterNcpus : FixOut ⊕ (Task × List FixStep) :=
        if t.mem_scales then
          tryFix mgr.ncpus_ok .incNcpus "increased ncps to solve memory problem"
            "increasing ncpus failed" t fs trace now
        else .inr (t, trace)
      match afterNcpus with
      | .inl out => out
      | .inr (t, trace) =>
        match tryFix mgr.mem_ok .incMem "increased mem" "increasing mem failed" t fs trace now with
        | .inl out => out
        | .inr (t, trace) =>
          match tryFix (!reduceRaises) .reduceMem "decreased mem demand"
              "decreasing demands failed" t fs trace now with
          | .inl out => out
          | .inr (t, trace) =>
            let msg := "Memory error detected but the memory could not be increased neither could the\nmemory demand be decreased. Unrecoverable error."
            match t.set_status Status.S_ERROR msg now with
            | .error e2 => ⟨t, fs, trace, some e2⟩
            | .ok r => ⟨r.task, fs, trace ++ [.setSt Status.S_ERROR msg], some "FixQueueCriticalError"⟩
    | .TimeCancel =>
      -- tasks.py:3263-3296; note: when every remediation fails the status is
      -- set to S_ERROR but *no* FixQueueCriticalError is raised and the loop
      -- moves on to the next queue error.
      match tryFix mgr.time_ok .incTime "increased wall time"
          "increasing the waltime failed" t fs trace now with
      | .inl out => out
      | .inr (t, trace) =>
        let afterNcpus : FixOut ⊕ (Task × List FixStep) :=
          if t.load_scales then
            tryFix mgr.ncpus_ok .incNcpus "increased number of cpus"
              "increase ncpus to speed up the calculation to stay in the walltime failed" t fs trace now
          else .inr (t, trace)
        match afterNcpus with
        | .inl out => out
        | .inr (t, trace) =>
          match tryFix (!speedUpRaises) .speedUp "task speedup"
              "decreasing demands failed" t fs trace now with
          | .inl out => out
          | .inr (t, trace) =>
            let msg := "Time cancel error detected but the time could not be increased neither could\nthe time demand be decreased by speedup of increasing the number of cpus.\nUnrecoverable error."
            match t.set_status Status.S_ERROR msg now with
            | .error e2 => ⟨t, fs, trace, some e2⟩
            | .ok r =>
              fixLoop mgr reduceRaises speedUpRaises now r.task fs
                (trace ++ [.setSt Status.S_ERROR msg]) rest
    | .Other name =>
      let msg := "No solution provided for error " ++ name ++ ". Unrecoverable error."
      match t.set_status Status.S_ERROR msg now with
      | .error e2 => ⟨t, fs, trace, some e2⟩
      | .ok r =>
        fixLoop mgr reduceRaises speedUpRaises now r.task fs
          (trace ++ [.setSt Status.S_ERROR msg]) rest

/-- `AbinitTask.fix_queue_critical` (tasks.py:3167-3302).  With no recorded
queue errors the generic-escalation branch runs (tasks.py:3183-3205);
otherwise each recorded error is handled in turn by `fixLoop`. -/
def fix_queue_critical (mgr : Manager) (reduceRaises speedUpRaises : Bool)
    (t : Task) (fs : ResetFS) (now : Int) : FixOut :=
  if t.queue_errors = [] then
    if t.mem_scales || t.load_scales then
      if mgr.resources_ok then
        match reset_from_scratch t fs now with
        | (t, fs, some e) => ⟨t, fs, [.incResources, .reset], some e⟩
        | (t, fs, none) => ⟨t, fs, [.incResources, .reset], none⟩
      else
        let msg := "unknown queue error, could not increase resources any further"
        match t.set_status Status.S_ERROR msg now with
        | .error e => ⟨t, fs, [.incResources], some e⟩
        | .ok r => ⟨r.task, fs, [.incResources, .setSt Status.S_ERROR msg], some "FixQueueCriticalError"⟩
    else
      let msg := "unknown queue error, no options left"
      match t.set_status Status.S_ERROR msg now with
      | .error e => ⟨t, fs, [], some e⟩
      | .ok r => ⟨r.task, fs, [.setSt Status.S_ERROR msg], some "FixQueueCriticalError"⟩
  else
    fixLoop mgr reduceRaises speedUpRaises now t fs [] t.queue_errors

/-- Run a sequence of `set_status` calls (each a target status, a message
and a wall-clock time) against a task, counting how many of them executed
the finalization hook `_on_ok`.  A call that raises leaves the task
unchanged, as in the source, and the sequence continues. -/
def runCalls : Task → List (Status × String × Int) → Task × Nat
  | t, [] => (t, 0)
  | t, (s, msg, now) :: rest =>
    match t.set_status s msg now with
    | .error _ => runCalls t rest
    | .ok r =>
      ((runCalls r.task rest).1, (if r.hookRan then 1 else 0) + (runCalls r.task rest).2)

end Task

/-! ### ParalConf / ParalHints: the autoparal configurations -/

/-- `ParalConf` (tasks.py:135-213): one parallel configuration reported by
ABINIT.  `mem_per_cpu` defaults to `0.0` and `vars` to `{}`
(tasks.py:170-174); the derived quantities `num_cores`, `mem_per_proc` and
`speedup` follow tasks.py:189-208.  Floats are embedded as `Rat`. -/
structure ParalConf where
  mpi_ncpus : Nat
  omp_ncpus : Nat := 1
  efficiency : Rat
  mem_per_cpu : Rat := 0
  vars : List (String × Int) := []
  deriving DecidableEq, Repr

namespace ParalConf

def num_cores (c : ParalConf) : Nat := c.mpi_ncpus * c.omp_ncpus

def mem_per_proc (c : ParalConf) : Rat := c.mem_per_cpu

/-- Estimated speedup reported by ABINIT: `efficiency * num_cores`. -/
def speedup (c : ParalConf) : Rat := qmul c.efficiency (c.num_cores : Rat)

end ParalConf

namespace ParalHints

/-- `ParalHints.select_with_condition` (tasks.py:332-351): keep exactly the
configurations satisfying the condition.  The Mongodb-like `Condition`
object applied to `conf` (or, with `key="vars"`, to `conf["vars"]`) is
abstracted as a Boolean predicate on the selected object; the `key="vars"`
call sites precompose with `.vars`. -/
def select_with_condition (confs : List ParalConf) (cond : ParalConf → Bool) :
    List ParalConf :=
  confs.filter cond

/-- `ParalHints.sort_by_efficiency` (tasks.py:353-356): stable sort, highest
efficiency first (Python `list.sort(key=..., reverse=True)`). -/
def sort_by_efficiency (confs : List ParalConf) : List ParalConf :=
  confs.insertionSort (fun a b => b.efficiency ≤ a.efficiency)

/-- `ParalHints.sort_by_speedup` (tasks.py:358-361): stable sort, highest
speedup first. -/
def sort_by_speedup (confs : List ParalConf) : List ParalConf :=
  confs.insertionSort (fun a b => b.speedup ≤ a.speedup)

/-- `ParalHints.sort_by_mem_per_proc` (tasks.py:363-368): stable sort with
lowest memory per proc first, but only if at least one configuration has
`mem_per_proc > 0.0` ("Avoid sorting if mem_per_cpu is not available"). -/
def sort_by_mem_per_proc (confs : List ParalConf) : List ParalConf :=
  if confs.any (fun c => 0 < c.mem_per_proc) then
    confs.insertionSort (fun a b => a.mem_per_proc ≤ b.mem_per_proc)
  else confs

end ParalHints

/-! ### SparseHistogram and multidimensional optimization -/

/-- Python `int()` applied to a rational: truncation toward zero
(`Int.tdiv` of the reduced numerator by the denominator). -/
def pyInt (x : Rat) : Int := x.num.tdiv x.den

/-- The keyword arguments a call site passes to `SparseHistogram.__init__`
(utils.py:890).  The constructor accepts only `num` and `step`;
`unexpectedKw` records that the call supplies some other keyword (which
CPython rejects with a `TypeError` before the body runs). -/
structure HistKwargs where
  num : Option Int := none
  step : Option Rat := none
  unexpectedKw : Bool := false

/-- `SparseHistogram.__init__` (utils.py:888-915): bucket `items` by
`key` into bins anchored at `np.linspace(start, stop, num, endpoint=False)`
where `start`/`stop` are the min/max of the key values, using
`monty.bisect.find_le` (rightmost mesh value `≤` the item's value).
Returns the buckets as `(binval, items)` pairs with `binvals` in ascending
order, each bucket keeping the original item order — i.e. the
`self.binvals` / `self.values` fields.  Errors mirror the exceptions the
Python code can raise on each path. -/
def sparseHistogram {α : Type} [DecidableEq α] (items : List α) (key : α → Rat)
    (kw : HistKwargs) : Except String (List (Rat × List α)) :=
  if kw.unexpectedKw then
    .error "TypeError: __init__() got an unexpected keyword argument"
  else if kw.num = none ∧ kw.step = none then
    .error "Either num or step must be specified"
  else
    match items.map key with
    | [] => .error "min() arg is an empty sequence"
    | v0 :: vs =>
      let start := vs.foldl min v0
      let stop := vs.foldl max v0
      let num : Int := match kw.num, kw.step with
        | some n, _ => n
        | none, some st =>
          let n := pyInt (qdiv (qsub stop start) st)
          if n = 0 then 1 else n
        | none, none => 0   -- unreachable: excluded above
      if num < 0 then
        .error "ValueError: Number of samples, -1, must be non-negative."
      else
        let mesh : List Rat :=
          (List.range num.toNat).map
            (fun i => qadd start (qdiv (qmul (qsub stop start) (i : Rat)) (num : Rat)))
        let binOf : α → Option Rat := fun it => (mesh.filter (· ≤ key it)).getLast?
        if items.any (fun it => binOf it = none) then
          .error "ValueError: find_le: no value found"
        else
          let binvals := ((items.filterMap binOf).dedup).insertionSort (· ≤ ·)
          .ok (binvals.map (fun b => (b, items.filter (fun it => binOf it = some b))))

/-- One entry of `policy.autoparal_priorities` as dispatched on in
`get_ordered_with_policy` (tasks.py:430-441): one of the three field names,
or the mapping `{meta_priority: "highest_speedup_minimum_efficiency_cutoff",
minimum_efficiency: q}`. -/
inductive APriority where
  | speedup
  | efficiency
  | mem_per_proc
  | meta (minimum_efficiency : Rat)
  deriving DecidableEq, Repr

namespace ParalHints

/-- The `opts` mapping of `multidimensional_optimization` (tasks.py:372):
`dict(speedup=dict(step=1.0), efficiency=dict(step=0.1),
mem_per_proc=dict(memory=1024))`.  Note that for `mem_per_proc` the source
passes the bin width under the keyword `memory`, which is *not* a parameter
of `SparseHistogram.__init__` (utils.py:890 accepts only `num` and `step`).
A mapping priority is not a key of `opts` at all. -/
def histOpts : APriority → Except String HistKwargs
  | .speedup => .ok { step := some 1 }
  | .efficiency => .ok { step := some (mkRat 1 10) }
  | .mem_per_proc => .ok { unexpectedKw := true }
  | .meta _ => .error "TypeError: unhashable type"

/-- The histogram key `lambda c: getattr(c, priority)` (tasks.py:377). -/
def histKey : APriority → ParalConf → Rat
  | .speedup => ParalConf.speedup
  | .efficiency => ParalConf.efficiency
  | .mem_per_proc => ParalConf.mem_per_proc
  | .meta _ => ParalConf.speedup   -- unreachable: histOpts errors first

/-- `ParalHints.multidimensional_optimization` (tasks.py:370-382): for each
priority in turn, bucket the surviving configurations into a
`SparseHistogram` with that priority's options and keep only the extreme
bucket — `histogram.values[0]` (lowest bin) for `mem_per_proc`,
`histogram.values[-1]` (highest bin) otherwise. -/
def multidimensional_optimization : List ParalConf → List APriority →
    Except String (List ParalConf)
  | confs, [] => .ok confs
  | confs, p :: ps =>
    match histOpts p with
    | .error e => .error e
    | .ok kw =>
      match sparseHistogram confs (histKey p) kw with
      | .error e => .error e
      | .ok buckets =>
        let extreme := if p = APriority.mem_per_proc then buckets.head? else buckets.getLast?
        match extreme with
        | none => .error "IndexError: list index out of range"
        | some (_, survivors) => multidimensional_optimization survivors ps

end ParalHints

/-- The selection-relevant fields of `TaskPolicy` (tasks.py:494-505).
`condition`/`vars_condition` are `Condition` objects; a `Condition` built
from an empty mapping is falsy (`utils.py:835-836`), embedded as `none`,
while a truthy condition is abstracted as the Boolean predicate it
evaluates (for `vars_condition`, on the `vars` sub-dictionary). -/
structure TaskPolicyModel where
  condition : Option (ParalConf → Bool) := none
  vars_condition : Option (List (String × Int) → Bool) := none
  autoparal_priorities : List APriority := [.speedup]

namespace ParalHints

/-- The condition-filtering stage of `ParalHints.get_ordered_with_policy`
(tasks.py:405-428): discard configurations above the core ceiling, then
apply `policy.condition` and `policy.vars_condition` in turn, each with the
"undo change if no configuration fulfills the requirements" revert to the
backed-up pre-filter list. -/
def applyPolicyConditions (policy : TaskPolicyModel) (max_ncpus : Nat)
    (confs : List ParalConf) : List ParalConf :=
  let hints := confs.filter (fun c => c.num_cores ≤ max_ncpus)
  let hints := match policy.condition with
    | none => hints
    | some cond =>
      let filtered := select_with_condition hints cond
      if filtered = [] then hints else filtered
  match policy.vars_condition with
  | none => hints
  | some vcond =>
    let filtered := select_with_condition hints (fun c => vcond c.vars)
    if filtered = [] then hints else filtered

/-- `ParalHints.get_ordered_with_policy` (tasks.py:401-448): filter by the
core ceiling and the policy conditions, then rank — by a stable sort when
exactly one priority is requested (with the efficiency-cutoff variant for
the mapping form), by `multidimensional_optimization` otherwise, raising
`ValueError` if that leaves no configuration. -/
def get_ordered_with_policy (policy : TaskPolicyModel) (max_ncpus : Nat)
    (confs : List ParalConf) : Except String (List ParalConf) :=
  let hints := applyPolicyConditions policy max_ncpus confs
  match policy.autoparal_priorities with
  | [APriority.speedup] => .ok (sort_by_speedup hints)
  | [APriority.efficiency] => .ok (sort_by_efficiency hints)
  | [APriority.mem_per_proc] => .ok (sort_by_mem_per_proc hints)
  | [APriority.meta min_efficiency] =>
    -- select_with_condition({'efficiency': {'$gte': min}}), no revert here
    .ok (sort_by_speedup (select_with_condition hints (fun c => min_efficiency ≤ c.efficiency)))
  | ps =>
    match multidimensional_optimization hints ps with
    | .error e => .error e
    | .ok ranked => if ranked = [] then .error "len(hints) == 0" else .ok ranked

end ParalHints

/-! ### TaskManager construction -/

/-- What `TaskManager.__init__` (tasks.py:716-754) consumes of each entry in
the `qadapters` list: the `enabled` key (`d.get("enabled", False)`,
tasks.py:733) and the priority of the qadapter built from it. -/
structure QAdapterDesc where
  enabled : Bool := false
  priority : Int
  deriving DecidableEq, Repr

/-- The adapter-collection loop of `TaskManager.__init__`
(tasks.py:731-738): entries with a truthy `enabled` key are skipped (note
the source's test is `if d.get("enabled", False): continue`); a qadapter
with positive priority is kept, zero priority is silently dropped, negative
priority raises.  Returns the kept priorities in input order. -/
def collectQads : List QAdapterDesc → Except String (List Int)
  | [] => .ok []
  | d :: ds =>
    if d.enabled then collectQads ds
    else if 0 < d.priority then
      match collectQads ds with
      | .error e => .error e
      | .ok rest => .ok (d.priority :: rest)
    else if d.priority < 0 then
      .error "qadapter cannot have negative priority"
    else collectQads ds

/-- `TaskManager.__init__` (tasks.py:716-754), restricted to the qadapter
list handling: collect the active adapters, reject an empty list, order by
ascending priority, and reject duplicated priorities
(`len(priorities) != len(set(priorities))`, tasks.py:748).  Returns the
sorted priority list of the active adapters. -/
def taskManagerInit (descs : List QAdapterDesc) : Except String (List Int) :=
  match collectQads descs with
  | .error e => .error e
  | .ok qads =>
    if qads = [] then .error "Received emtpy list of qadapters"
    else
      let sorted := qads.insertionSort (· ≤ ·)
      if sorted.length ≠ sorted.dedup.length then
        .error "Two or more qadapters have same priority. This is not allowed. Check taskmanager.yml"
      else .ok sorted

/-! ### Theorems -/

/-- The bookkeeping part of `set_status` only changes `status`, the
datetimes and the history. -/
theorem recordTransition_fields (t : Task) (s : Status) (msg : String) (now : Int) :
    (t.recordTransition s msg now).status = s ∧
    (t.recordTransition s msg now).finalized = t.finalized ∧
    (t.recordTransition s msg now).num_restarts = t.num_restarts ∧
    (t.recordTransition s msg now).queue_errors = t.queue_errors ∧
    (t.recordTransition s msg now).mem_scales = t.mem_scales ∧
    (t.recordTransition s msg now).load_scales = t.load_scales := by
  unfold Task.recordTransition
  dsimp only
  refine ⟨?_, ?_, ?_, ?_, ?_, ?_⟩ <;> (repeat' split) <;> rfl

/-- `set_status` succeeds whenever neither the current nor the target
status is `S_LOCKED`, returns the target status, installs it on the task,
and does not touch the counters or the queue-error list; the recorded
message is the argument itself when it is short enough to escape
truncation. -/
theorem set_status_ok (t : Task) (s : Status) (msg : String) (now : Int)
    (hts : t.status ≠ Status.S_LOCKED) (hs : s ≠ Status.S_LOCKED) :
    ∃ r, t.set_status s msg now = .ok r ∧ r.ret = s ∧ r.task.status = s ∧
      r.task.num_restarts = t.num_restarts ∧
      r.task.queue_errors = t.queue_errors ∧
      r.task.mem_scales = t.mem_scales ∧
      r.task.load_scales = t.load_scales ∧
      (msg.length ≤ 2000 → r.msg = msg) := by
  have hcond : ¬(t.status = Status.S_LOCKED ∨ s = Status.S_LOCKED) := by
    rintro (h | h)
    · exact hts h
    · exact hs h
  unfold Task.set_status
  dsimp only
  rw [if_neg hcond]
  set m := if msg.length > 2000 then msg.take 2000 ++ "\n... snip ...\n" else msg with hm
  obtain ⟨h1, h2, h3, h4, h5, h6⟩ := recordTransition_fields t s m now
  have hmsg : msg.length ≤ 2000 → m = msg := by
    intro hlen
    rw [hm, if_neg (by omega)]
  split
  · refine ⟨_, rfl, rfl, ?_, ?_, ?_, ?_, ?_, hmsg⟩ <;>
      split <;> simp [Task.onOkHook, h1, h3, h4, h5, h6]
  · exact ⟨_, rfl, rfl, h1, h3, h4, h5, h6, hmsg⟩

/-- The finalization hook runs only on a transition to `S_OK` with the
`finalized` latch still clear; it sets the latch, and a call that does not
run it leaves the latch as it was. -/
theorem set_status_hook (t : Task) (s : Status) (msg : String) (now : Int)
    (r : Task.SetStatusResult) (h : t.set_status s msg now = .ok r) :
    (r.hookRan = true → r.task.finalized = true) ∧
    (r.hookRan = false → r.task.finalized = t.finalized) ∧
    (t.finalized = true → r.hookRan = false) := by
  obtain ⟨h1, h2, h3, h4, h5, h6⟩ := recordTransition_fields t s
    (if msg.length > 2000 then msg.take 2000 ++ "\n... snip ...\n" else msg) now
  unfold Task.set_status at h
  dsimp only at h
  split at h
  · exact absurd h (by simp)
  · split at h
    · cases h
      refine ⟨?_, ?_, ?_⟩
      · intro hr
        simp only [Bool.not_eq_true'] at hr
        rw [if_neg (by simp [hr])]
        rfl
      · intro hr
        simp only [Bool.not_eq_false'] at hr
        rw [if_pos hr]
        exact h2
      · intro hf
        show (!_) = false
        rw [h2, hf]
        rfl
    · cases h
      exact ⟨by simp, fun _ => h2, fun _ => rfl⟩

/-- `set_status` raises the "Locked files must be explicitly unlocked"
`RuntimeError` whenever the current or the target status is `S_LOCKED`; the
raise happens before any mutation. -/
theorem set_status_locked_err (t : Task) (s : Status) (msg : String) (now : Int)
    (h : t.status = Status.S_LOCKED ∨ s = Status.S_LOCKED) :
    ∃ e, t.set_status s msg now = .error e := by
  unfold Task.set_status
  dsimp only
  rw [if_pos h]
  exact ⟨_, rfl⟩

/-- A `set_status` call on a locked task never returns normally. -/
theorem set_status_locked_ne_ok (t : Task) (s : Status) (msg : String) (now : Int)
    (ht : t.status = Status.S_LOCKED) (r : Task.SetStatusResult) :
    t.set_status s msg now ≠ .ok r := by
  obtain ⟨e, he⟩ := set_status_locked_err t s msg now (Or.inl ht)
  rw [he]
  simp

/-- A run of `set_status` calls on a task whose `finalized` latch is already
set never executes the finalization hook. -/
theorem runCalls_zero (calls : List (Status × String × Int)) :
    ∀ t : Task, t.finalized = true → (Task.runCalls t calls).2 = 0 := by
  induction calls with
  | nil => intro t _; rfl
  | cons c rest ih =>
    intro t ht
    obtain ⟨s, msg, now⟩ := c
    unfold Task.runCalls
    cases hss : t.set_status s msg now with
    | error e => exact ih t ht
    | ok r =>
      obtain ⟨hk1, hk2, hk3⟩ := set_status_hook t s msg now r hss
      have hr0 : r.hookRan = false := hk3 ht
      have hfin : r.task.finalized = true := (hk2 hr0).trans ht
      dsimp only
      rw [hr0, ih r.task hfin]
      simp

/-- Claim C3: starting from a task whose `finalized` latch is clear (its
initial value), any sequence of `set_status` calls — in particular any
number of transitions to `S_OK` — executes the finalization hook `_on_ok`
at most once: the first transition to `S_OK` latches `finalized`
(tasks.py:1971, 1675) and every later `S_OK` transition skips the hook. -/
theorem c3_finalize_at_most_once (t : Task) (calls : List (Status × String × Int))
    (h : t.finalized = false) : (Task.runCalls t calls).2 ≤ 1 := by
  induction calls generalizing t with
  | nil => exact Nat.zero_le 1
  | cons c rest ih =>
    obtain ⟨s, msg, now⟩ := c
    unfold Task.runCalls
    cases hss : t.set_status s msg now with
    | error e => exact ih t h
    | ok r =>
      obtain ⟨hk1, hk2, _⟩ := set_status_hook t s msg now r hss
      dsimp only
      by_cases hr : r.hookRan = true
      · rw [hr, runCalls_zero rest r.task (hk1 hr)]
        simp
      · rw [Bool.not_eq_true] at hr
        rw [hr]
        simpa using ih r.task ((hk2 hr).trans h)

/-- Witness for C3: a fresh `S_READY` task receiving two consecutive
`set_status(S_OK, ...)` calls runs the hook exactly once. -/
theorem c3_witness :
    ({ status := Status.S_READY, datetimes := { init := 0 } } : Task).finalized = false ∧
    (Task.runCalls { status := Status.S_READY, datetimes := { init := 0 } }
      [(Status.S_OK, "first", 1), (Status.S_OK, "second", 2)]).2 ≤ 1 ∧
    (Task.runCalls { status := Status.S_READY, datetimes := { init := 0 } }
      [(Status.S_OK, "first", 1), (Status.S_OK, "second", 2)]).2 = 1 :=
  ⟨rfl, c3_finalize_at_most_once _ _ rfl, by decide⟩

/-- Claim C2: the `S_LOCKED` state is exclusionary.  (1) From a locked task
every `set_status` call raises, leaving the state — in particular the
status — untouched; (2) `set_status` with target `S_LOCKED` raises from any
status; (3) `unlock` on a locked task succeeds and sets the status to
`S_READY` (before its optional `check_status` re-derivation); (4) a
successful `set_status` call never starts from `S_LOCKED` and never
produces it, so only `lock`/`unlock` move a task into or out of `S_LOCKED`;
(5) `check_status`, when it returns normally on a locked task, leaves the
task unchanged. -/
theorem c2_locked_exclusion :
    (∀ (t : Task) (s : Status) (msg : String) (now : Int), t.status = Status.S_LOCKED →
      ∃ e, t.set_status s msg now = .error e) ∧
    (∀ (t : Task) (msg : String) (now : Int),
      ∃ e, t.set_status Status.S_LOCKED msg now = .error e) ∧
    (∀ (env : TaskEnv) (t : Task), t.status = Status.S_LOCKED →
      ∃ t', Task.unlock env t false = .ok t' ∧ t'.status = Status.S_READY) ∧
    (∀ (t : Task) (s : Status) (msg : String) (now : Int) (r : Task.SetStatusResult),
      t.set_status s msg now = .ok r →
        r.task.status = s ∧ s ≠ Status.S_LOCKED ∧ t.status ≠ Status.S_LOCKED) ∧
    (∀ (env : TaskEnv) (t : Task) (r : Task.SetStatusResult),
      Task.check_status env t = .ok r → t.status = Status.S_LOCKED →
        r.task = t ∧ r.ret = Status.S_LOCKED) := by
  refine ⟨?_, ?_, ?_, ?_, ?_⟩
  · intro t s msg now ht
    exact set_status_locked_err t s msg now (Or.inl ht)
  · intro t msg now
    exact set_status_locked_err t Status.S_LOCKED msg now (Or.inr rfl)
  · intro env t ht
    unfold Task.unlock
    rw [if_neg (by simp [ht])]
    exact ⟨_, rfl, rfl⟩
  · intro t s msg now r h
    unfold Task.set_status at h
    dsimp only at h
    split at h
    · exact absurd h (by simp)
    · next hcond =>
      push_neg at hcond
      obtain ⟨hts, hs⟩ := hcond
      repeat' split at h
      all_goals cases h
      all_goals refine ⟨?_, hs, hts⟩
      all_goals exact (recordTransition_fields t s _ now).1
  · intro env t r h ht
    unfold Task.check_status at h
    dsimp only at h
    repeat' split at h
    all_goals
      first
        | (exact absurd h (set_status_locked_ne_ok _ _ _ _ (by simp [ht]) r))
        | (unfold Task.check_status_tail at h
           dsimp only at h
           repeat' split at h
           all_goals
             first
               | (exact absurd h (set_status_locked_ne_ok _ _ _ _ (by simp [ht]) r))
               | (simp only [Except.ok.injEq] at h
                  subst h
                  exact ⟨rfl, ht⟩))

/-- Witness for C2, exercising all five conjuncts at concrete tasks: a
locked task rejecting `set_status`, a ready task rejecting a transition to
`S_LOCKED`, `unlock` producing `S_READY`, a successful transition landing on
its (non-`LOCKED`) target, and `check_status` leaving a locked task
untouched. -/
theorem c2_witness :
    (∃ e, Task.set_status { status := Status.S_LOCKED, datetimes := { init := 0 } }
      Status.S_OK "done" 0 = .error e) ∧
    (∃ e, Task.set_status { status := Status.S_READY, datetimes := { init := 0 } }
      Status.S_LOCKED "lock it" 0 = .error e) ∧
    (∃ t', Task.unlock {} { status := Status.S_LOCKED, datetimes := { init := 0 } } false = .ok t' ∧
      t'.status = Status.S_READY) ∧
    (({ task := { status := Status.S_RUN,
                  datetimes := { init := 0, start := some 5 },
                  history := ["Status changed to Running. msg: go"] },
        ret := Status.S_RUN, msg := "go", hookRan := false } : Task.SetStatusResult).task.status
          = Status.S_RUN ∧
      Status.S_RUN ≠ Status.S_LOCKED ∧
      ({ status := Status.S_READY, datetimes := { init := 0 } } : Task).status ≠ Status.S_LOCKED) ∧
    (({ task := { status := Status.S_LOCKED, datetimes := { init := 0 } },
        ret := Status.S_LOCKED, msg := "", hookRan := false } : Task.SetStatusResult).task
          = { status := Status.S_LOCKED, datetimes := { init := 0 } } ∧
      ({ task := { status := Status.S_LOCKED, datetimes := { init := 0 } },
         ret := Status.S_LOCKED, msg := "", hookRan := false } : Task.SetStatusResult).ret
          = Status.S_LOCKED) :=
  ⟨c2_locked_exclusion.1 _ Status.S_OK "done" 0 rfl,
   c2_locked_exclusion.2.1 _ "lock it" 0,
   c2_locked_exclusion.2.2.1 {} _ rfl,
   c2_locked_exclusion.2.2.2.1 { status := Status.S_READY, datetimes := { init := 0 } }
     Status.S_RUN "go" 5 _ rfl,
   c2_locked_exclusion.2.2.2.2 {} { status := Status.S_LOCKED, datetimes := { init := 0 } }
     _ rfl rfl⟩

/-- Claim C1 is violated by the code: the guard
`if self.status in black_list: return self.status` for the
`(S_LOCKED, S_ERROR)` black list is commented out (tasks.py:2000-2001), so
`check_status` happily re-derives the status of an errored task — here a
non-zero job-script return code moves an `S_ERROR` task to `S_QCRITICAL` —
and on a locked task it reaches `set_status`, which raises instead of
returning the current status unchanged. -/
theorem c1_check_status_rederives_terminal :
    (({ status := Status.S_ERROR, datetimes := { init := 0 } } : Task).status
        = Status.S_ERROR) ∧
    (∃ r, Task.check_status { returncode := 1 }
        { status := Status.S_ERROR, datetimes := { init := 0 } } = .ok r ∧
      r.ret = Status.S_QCRITICAL ∧ r.task.status = Status.S_QCRITICAL) ∧
    (∃ e, Task.check_status { returncode := 1 }
        { status := Status.S_LOCKED, datetimes := { init := 0 } } = .error e) :=
  ⟨rfl, ⟨_, rfl, rfl, rfl⟩, ⟨_, rfl⟩⟩

/-- Claim C4 is violated by the code on the timestamp part: after
`reset_from_scratch` the five previous-run files are moved into the
numbered `_reset` subfolder and the start-lock marker is removed, but the
per-run timestamps survive unchanged, because `TaskDateTimes.reset`
(tasks.py:1350-1352) only rebinds its local `self` and never clears the
fields.  Evaluated at a task whose submission/start/end were 5/6/7. -/
theorem c4_reset_keeps_datetimes :
    (Task.reset_from_scratch
        { status := Status.S_QCRITICAL,
          datetimes := { init := 0, submission := some 5, start := some 6, «end» := some 7 } }
        { output_file := true, log_file := true, stderr_file := true, qout_file := true,
          qerr_file := true, start_lock := true } 100) =
      ({ status := Status.S_READY,
         datetimes := { init := 0, submission := some 5, start := some 6, «end» := some 7 },
         num_restarts := 1,
         history := ["Status changed to Ready. msg: Restarted on 100",
                     "Restarted, num_restarts 1"] },
       { reset_dir := some 1,
         reset_files := ["run.abo_1", "run.log_1", "run.err_1", "queue.qout_1", "queue.qerr_1"] },
       none) ∧
    TaskDateTimes.resetSpec
        { init := 0, submission := some 5, start := some 6, «end» := some 7 } 100 ≠
      { init := 0, submission := some 5, start := some 6, «end» := some 7 } :=
  ⟨rfl, by decide⟩

/-- Claim C7 is violated by the code on the memory priority: the `opts`
mapping of `multidimensional_optimization` passes the memory bin width as
`dict(memory=1024)` (tasks.py:372), but `SparseHistogram.__init__` accepts
only `num` and `step` (utils.py:890), so any priority list containing
`mem_per_proc` raises `TypeError` instead of bucketing with width 1024 MB
and keeping the lowest bucket.  The speedup stage does behave as described:
with speedups `[1, 3, 2]` and bucket width 1.0 only the highest bucket
(speedups 3 and 2, in stable order) survives. -/
theorem c7_memory_priority_raises :
    ParalHints.multidimensional_optimization
        [{ mpi_ncpus := 1, efficiency := 1, mem_per_cpu := 100 },
         { mpi_ncpus := 1, efficiency := 1, mem_per_cpu := 2000 }]
        [APriority.speedup, APriority.mem_per_proc] =
      .error "TypeError: __init__() got an unexpected keyword argument" ∧
    ParalHints.multidimensional_optimization
        [{ mpi_ncpus := 1, efficiency := 1 },
         { mpi_ncpus := 1, efficiency := 3 },
         { mpi_ncpus := 1, efficiency := 2 }]
        [APriority.speedup] =
      .ok [{ mpi_ncpus := 1, efficiency := 3 }, { mpi_ncpus := 1, efficiency := 2 }] :=
  ⟨by decide, by decide⟩

/-- Claim C10: when no configuration reports a positive memory estimate,
`sort_by_mem_per_proc` is the identity — the guard
`any(c.mem_per_proc > 0.0 for c in self)` (tasks.py:366) fails, so the list
is never sorted and the configuration order is completely unchanged. -/
theorem c10_sort_by_mem_per_proc_identity_when_no_mem
    (confs : List ParalConf) (h : ∀ c ∈ confs, c.mem_per_proc = 0) :
    ParalHints.sort_by_mem_per_proc confs = confs := by
  unfold ParalHints.sort_by_mem_per_proc
  rw [if_neg]
  intro hany
  rw [List.any_eq_true] at hany
  obtain ⟨c, hc, hlt⟩ := hany
  rw [h c hc] at hlt
  exact absurd (of_decide_eq_true hlt) (lt_irrefl 0)

/-- Witness for C10 at a concrete two-configuration list whose order (by
core count) is not memory-sorted order. -/
theorem c10_witness :
    (∀ c ∈ [({ mpi_ncpus := 2, efficiency := 1 } : ParalConf),
            { mpi_ncpus := 1, efficiency := 1 }], c.mem_per_proc = 0) ∧
    ParalHints.sort_by_mem_per_proc
      [({ mpi_ncpus := 2, efficiency := 1 } : ParalConf), { mpi_ncpus := 1, efficiency := 1 }] =
      [{ mpi_ncpus := 2, efficiency := 1 }, { mpi_ncpus := 1, efficiency := 1 }] :=
  ⟨by decide, c10_sort_by_mem_per_proc_identity_when_no_mem _ (by decide)⟩

/-- Claim C5: the condition-filtering stage of `get_ordered_with_policy`
never empties a non-empty candidate pool: whenever the ceiling-filtered list
is non-empty, after applying `policy.condition` and `policy.vars_condition`
(each with the revert-on-empty backup, tasks.py:409-428) the pool is still
non-empty, for every choice of the two filter conditions. -/
theorem c5_selection_never_empties (policy : TaskPolicyModel) (max_ncpus : Nat)
    (confs : List ParalConf)
    (h : confs.filter (fun c => c.num_cores ≤ max_ncpus) ≠ []) :
    ParalHints.applyPolicyConditions policy max_ncpus confs ≠ [] := by
  have key : ∀ l f : List ParalConf, l ≠ [] → (if f = [] then l else f) ≠ [] := by
    intro l f hl
    split
    · exact hl
    · assumption
  unfold ParalHints.applyPolicyConditions
  cases hc : policy.condition <;> cases hv : policy.vars_condition <;>
    simp only [hc, hv] <;>
    first
      | exact h
      | exact key _ _ h
      | exact key _ _ (key _ _ h)

/-- Witness for C5: a single configuration under a condition and a vars
condition that both reject everything; the pool is reverted instead of
being emptied. -/
theorem c5_witness :
    ([({ mpi_ncpus := 1, efficiency := 1 } : ParalConf)].filter
        (fun c => c.num_cores ≤ 4) ≠ []) ∧
    ParalHints.applyPolicyConditions
      { condition := some (fun _ => false), vars_condition := some (fun _ => false) }
      4 [({ mpi_ncpus := 1, efficiency := 1 } : ParalConf)] ≠ [] :=
  ⟨by decide, c5_selection_never_empties _ 4 _ (by decide)⟩

/-- Claim C8: when none of the earlier `check_status` rules fires — clean
job-script return code, no abort file, the run log present with a parsed
report that is neither completed nor carrying errors, and the
empty-stderr/empty-queue-stderr rule not matching — the frozen check
decides: if the run log's last modification is older than `frozen_timeout`
relative to now, the status becomes `S_ERROR` with the message containing
"frozen"; otherwise the fall-through sets `S_RUN`. -/
theorem c8_frozen_detection (env : TaskEnv) (t : Task) (report : EventReport)
    (hlock : t.status ≠ Status.S_LOCKED)
    (hrc : env.returncode = 0)
    (hab : env.mpiabort_exists = false)
    (hout : env.output_exists = true)
    (hrep : env.report = .ok (some report))
    (hcomp : report.run_completed = false)
    (herr : report.errors = [])
    (hrule5 : ¬(env.stderr_exists = true ∧ env.stderr_content.length = 0 ∧
        env.qerr_exists = true ∧ env.qerr_content.length = 0))
    (hlen : (frozenMsg env.frozen_timeout).length ≤ 2000) :
    (env.now - env.output_mtime > env.frozen_timeout →
      ∃ r, Task.check_status env t = .ok r ∧ r.ret = Status.S_ERROR ∧
        r.msg = frozenMsg env.frozen_timeout ∧
        "frozen".toList <:+: r.msg.toList) ∧
    (¬env.now - env.output_mtime > env.frozen_timeout →
      ∃ r, Task.check_status env t = .ok r ∧ r.ret = Status.S_RUN) := by
  have hfroz : ∀ k : Int, "frozen".toList <:+: (frozenMsg k).toList := by
    intro k
    have : (frozenMsg k).toList =
        "Task seems to be frozen, last change more than ".toList ++
        (toString k ++ " [s] ago").toList := String.data_append _ _
    rw [this]
    exact List.IsInfix.trans (by decide) (List.prefix_append _ _).isInfix
  unfold Task.check_status
  dsimp only
  rw [if_neg (by simp [hrc]), if_neg (by simp [hab]), if_pos hout, hrep]
  dsimp only
  rw [if_neg (by simp [hcomp]), if_neg (by simp [herr])]
  rw [if_neg ?rule5]
  case rule5 =>
    rintro ⟨h1', h2', h3', h4'⟩
    apply hrule5
    refine ⟨h1', ?_, h3', ?_⟩
    · by_cases hz : fsize env.stderr_exists env.stderr_content = 0
      · simpa [fsize, h1'] using hz
      · simp [hz] at h2'
    · by_cases hz : fsize env.qerr_exists env.qerr_content = 0
      · simpa [fsize, h3'] using hz
      · simp [hz] at h4'
  unfold Task.check_status_tail
  dsimp only
  rw [if_neg (by simp [hout])]
  have hstat : ∀ t' : Task,
      (match (if fsize env.stderr_exists env.stderr_content ≠ 0
                then some env.stderr_content else none : Option String) with
        | some s => { t' with history := t'.history ++ ["Found error message:\n " ++ s] }
        | none => t').status = t'.status := by
    intro t'
    split <;> rfl
  constructor
  · intro hfr
    rw [if_pos ⟨hout, hfr⟩]
    obtain ⟨r, hr, hret, _, _, _, _, _, hmsg⟩ :=
      set_status_ok _ Status.S_ERROR (frozenMsg env.frozen_timeout) env.now
        (by rw [hstat t]; exact hlock) (by simp)
    exact ⟨r, hr, hret, hmsg hlen, (hmsg hlen) ▸ hfroz env.frozen_timeout⟩
  · intro hfr
    rw [if_neg (by rintro ⟨_, h⟩; exact hfr h)]
    obtain ⟨r, hr, hret, _⟩ :=
      set_status_ok _ Status.S_RUN
        "final option: nothing seems to be wrong, the job must still be running" env.now
        (by rw [hstat t]; exact hlock) (by simp)
    exact ⟨r, hr, hret⟩

/-- Witness for C8 at a concrete environment: `frozen_timeout = 3600`, run
log last modified at time 0; at `now = 3602` the task is declared frozen
(`S_ERROR`, message containing "frozen"), at `now = 100` it is `S_RUN`. -/
theorem c8_witness :
    (∃ r, Task.check_status
        { returncode := 0, output_exists := true, stderr_exists := true,
          stderr_content := "junk", report := .ok (some { run_completed := false }),
          output_mtime := 0, now := 3602, frozen_timeout := 3600 }
        { status := Status.S_RUN, datetimes := { init := 0 } } = .ok r ∧
      r.ret = Status.S_ERROR ∧ r.msg = frozenMsg 3600 ∧
      "frozen".toList <:+: r.msg.toList) ∧
    (∃ r, Task.check_status
        { returncode := 0, output_exists := true, stderr_exists := true,
          stderr_content := "junk", report := .ok (some { run_completed := false }),
          output_mtime := 0, now := 100, frozen_timeout := 3600 }
        { status := Status.S_RUN, datetimes := { init := 0 } } = .ok r ∧
      r.ret = Status.S_RUN) :=
  ⟨(c8_frozen_detection _ _ { run_completed := false } (by decide) rfl rfl rfl rfl rfl rfl
      (by decide) (by decide)).1 (by decide),
   (c8_frozen_detection _ _ { run_completed := false } (by decide) rfl rfl rfl rfl rfl rfl
      (by decide) (by decide)).2 (by decide)⟩

/-- A successful run of the adapter-collection loop returns exactly the
priorities of the non-skipped descriptors with positive priority, in input
order. -/
theorem collectQads_ok (l : List QAdapterDesc) (qs : List Int)
    (h : collectQads l = .ok qs) :
    qs = (l.filter (fun d => !d.enabled && decide (0 < d.priority))).map (·.priority) := by
  induction l generalizing qs with
  | nil =>
    simp only [collectQads] at h
    cases h
    rfl
  | cons d ds ih =>
    simp only [collectQads] at h
    by_cases he : d.enabled
    · rw [if_pos he] at h
      rw [List.filter_cons_of_neg (by simp [he])]
      exact ih qs h
    · rw [if_neg he] at h
      by_cases hpos : 0 < d.priority
      · rw [if_pos hpos] at h
        cases hc : collectQads ds with
        | error e => rw [hc] at h; exact absurd h (by simp)
        | ok rest =>
          rw [hc] at h
          cases h
          rw [List.filter_cons_of_pos (by simp [he, hpos])]
          rw [List.map_cons, ih rest hc]
      · rw [if_neg hpos] at h
        by_cases hneg : d.priority < 0
        · rw [if_pos hneg] at h
          exact absurd h (by simp)
        · rw [if_neg hneg] at h
          rw [List.filter_cons_of_neg (by simp [hpos])]
          exact ih qs h

/-- The adapter-collection loop raises as soon as a kept descriptor has
negative priority. -/
theorem collectQads_neg (l : List QAdapterDesc)
    (h : ∃ d ∈ l, d.enabled = false ∧ d.priority < 0) :
    ∃ e, collectQads l = .error e := by
  induction l with
  | nil => simp at h
  | cons d ds ih =>
    simp only [collectQads]
    obtain ⟨d', hd', he', hn'⟩ := h
    rcases List.mem_cons.mp hd' with hhead | htail
    · subst hhead
      rw [if_neg (by simp [he']), if_neg (by omega), if_pos hn']
      exact ⟨_, rfl⟩
    · have hrest := ih ⟨d', htail, he', hn'⟩
      obtain ⟨e, he⟩ := hrest
      by_cases hen : d.enabled
      · rw [if_pos hen]
        exact ⟨e, he⟩
      · rw [if_neg hen]
        by_cases hpos : 0 < d.priority
        · rw [if_pos hpos, he]
          exact ⟨e, rfl⟩
        · rw [if_neg hpos]
          by_cases hneg : d.priority < 0
          · rw [if_pos hneg]
            exact ⟨_, rfl⟩
          · rw [if_neg hneg]
            exact ⟨e, he⟩

/-- Claim C9: `TaskManager.__init__` rejects bad adapter configurations:
(1) two active (non-skipped) adapters sharing the same positive priority
make construction fail (the `len(priorities) != len(set(priorities))`
check); (2) an active adapter with negative priority raises; (3) when no
active adapter with positive priority exists — in particular for an empty
adapter list — the "Received emtpy list of qadapters" check raises. -/
theorem c9_taskmanager_rejects :
    (∀ descs : List QAdapterDesc,
      (∃ p : Int, 0 < p ∧
        2 ≤ ((descs.filter (fun d => !d.enabled)).map (·.priority)).count p) →
      ∀ qs, taskManagerInit descs ≠ .ok qs) ∧
    (∀ descs : List QAdapterDesc,
      (∃ d ∈ descs, d.enabled = false ∧ d.priority < 0) →
      ∀ qs, taskManagerInit descs ≠ .ok qs) ∧
    (∀ descs : List QAdapterDesc,
      descs.filter (fun d => !d.enabled && decide (0 < d.priority)) = [] →
      ∀ qs, taskManagerInit descs ≠ .ok qs) := by
  refine ⟨?_, ?_, ?_⟩
  · rintro descs ⟨p, hp, hcount⟩ qs h
    unfold taskManagerInit at h
    cases hc : collectQads descs with
    | error e => rw [hc] at h; exact absurd h (by simp)
    | ok qads =>
      rw [hc] at h
      dsimp only at h
      have hqads := collectQads_ok descs qads hc
      split at h
      · exact absurd h (by simp)
      · split at h
        · exact absurd h (by simp)
        · next hlen =>
          rw [not_ne_iff] at hlen
          -- the sorted priority list has no duplicates ...
          have hsub := List.dedup_sublist (qads.insertionSort (· ≤ ·))
          have heq := hsub.eq_of_length (hlen.symm)
          have hnodup : (qads.insertionSort (· ≤ ·)).Nodup := by
            rw [← heq]; exact List.nodup_dedup _
          have hqnodup : qads.Nodup :=
            (List.perm_insertionSort (· ≤ ·) qads).nodup_iff.mp hnodup
          -- ... yet the duplicated positive priority appears twice in it
          have h2 : 2 ≤ qads.count p := by
            rw [hqads, List.count_eq_countP, List.countP_map, List.countP_filter]
            rw [List.count_eq_countP, List.countP_map] at hcount
            rw [List.countP_filter] at hcount
            refine le_trans hcount (List.countP_mono_left ?_)
            intro d _ hd
            simp only [Function.comp, Bool.and_eq_true, decide_eq_true_eq] at hd ⊢
            obtain ⟨hdp, hden⟩ := hd
            have : d.priority = p := by simpa using hdp
            exact ⟨hdp, hden, by omega⟩
          have := List.nodup_iff_count_le_one.mp hqnodup p
          omega
  · rintro descs hneg qs h
    obtain ⟨e, he⟩ := collectQads_neg descs hneg
    unfold taskManagerInit at h
    rw [he] at h
    exact absurd h (by simp)
  · rintro descs hempty qs h
    unfold taskManagerInit at h
    cases hc : collectQads descs with
    | error e => rw [hc] at h; exact absurd h (by simp)
    | ok qads =>
      rw [hc] at h
      dsimp only at h
      have hqads := collectQads_ok descs qads hc
      rw [hempty] at hqads
      simp only [List.map_nil] at hqads
      rw [if_pos hqads] at h
      exact absurd h (by simp)

/-- Witness for C9: duplicated positive priority 5, a negative priority,
and the empty adapter list are each rejected. -/
theorem c9_witness :
    (taskManagerInit [{ enabled := false, priority := 5 },
                      { enabled := false, priority := 5 }] ≠ .ok [5, 5]) ∧
    (taskManagerInit [{ enabled := false, priority := -1 }] ≠ .ok []) ∧
    (taskManagerInit [] ≠ .ok []) :=
  ⟨c9_taskmanager_rejects.1 _ ⟨5, by decide, by decide⟩ [5, 5],
   c9_taskmanager_rejects.2.1 _ ⟨{ enabled := false, priority := -1 }, by decide, rfl, by decide⟩ [],
   c9_taskmanager_rejects.2.2 [] rfl []⟩

/-- `reset_from_scratch` on an unlocked task returns normally, puts the
task in `S_READY`, increments the restart counter, and removes the
start-lock marker; the scaling flags and the queue-error list are
untouched. -/
theorem reset_from_scratch_ok (t : Task) (fs : ResetFS) (now : Int)
    (hlock : t.status ≠ Status.S_LOCKED) :
    ∃ t' fs', Task.reset_from_scratch t fs now = (t', fs', none) ∧
      t'.status = Status.S_READY ∧
      t'.num_restarts = t.num_restarts + 1 ∧
      t'.queue_errors = t.queue_errors ∧
      t'.mem_scales = t.mem_scales ∧
      t'.load_scales = t.load_scales ∧
      fs'.start_lock = false := by
  obtain ⟨r, hr, hret, hst, hnr, hqe, hms, hls, _⟩ :=
    set_status_ok { t with datetimes := t.datetimes.reset } Status.S_READY
      ("Restarted on " ++ toString now) now hlock (by simp)
  unfold Task.reset_from_scratch
  dsimp only
  rw [hr]
  dsimp only
  exact ⟨_, _, rfl, hst, by simpa using hnr, hqe, hms, hls, rfl⟩

/-- Claim C6: handling a memory-cancellation queue error on a task with
`mem_scales = True`, `fix_queue_critical` tries the remediations in order —
(a) `increase_ncpus`, then, only if that raised `ManagerIncreaseError`,
(b) `increase_mem`, then, only if that also raised, (c) the voluntary
`reduce_memory_demand` hook.  The first success performs
`reset_from_scratch` (incrementing `num_restarts`) and leaves the task
`S_READY`; when (b) is the one that succeeds the recorded message is
"increased mem".  If all three fail the task is set to `S_ERROR` and
`FixQueueCriticalError` is raised. -/
theorem c6_memory_cancel_remediation (mgr : Manager) (reduceRaises speedUpRaises : Bool)
    (t : Task) (fs : ResetFS) (now : Int)
    (hq : t.queue_errors = [QueueError.MemoryCancel])
    (hm : t.mem_scales = true)
    (hlock : t.status ≠ Status.S_LOCKED) :
    (mgr.ncpus_ok = true →
      (Task.fix_queue_critical mgr reduceRaises speedUpRaises t fs now).trace =
        [.incNcpus, .reset, .setSt Status.S_READY "increased ncps to solve memory problem"] ∧
      (Task.fix_queue_critical mgr reduceRaises speedUpRaises t fs now).raised = none ∧
      (Task.fix_queue_critical mgr reduceRaises speedUpRaises t fs now).task.status = Status.S_READY ∧
      (Task.fix_queue_critical mgr reduceRaises speedUpRaises t fs now).task.num_restarts = t.num_restarts + 1) ∧
    (mgr.ncpus_ok = false → mgr.mem_ok = true →
      (Task.fix_queue_critical mgr reduceRaises speedUpRaises t fs now).trace =
        [.incNcpus, .incMem, .reset, .setSt Status.S_READY "increased mem"] ∧
      (Task.fix_queue_critical mgr reduceRaises speedUpRaises t fs now).raised = none ∧
      (Task.fix_queue_critical mgr reduceRaises speedUpRaises t fs now).task.status = Status.S_READY ∧
      (Task.fix_queue_critical mgr reduceRaises speedUpRaises t fs now).task.num_restarts = t.num_restarts + 1) ∧
    (mgr.ncpus_ok = false → mgr.mem_ok = false → reduceRaises = false →
      (Task.fix_queue_critical mgr reduceRaises speedUpRaises t fs now).trace =
        [.incNcpus, .incMem, .reduceMem, .reset, .setSt Status.S_READY "decreased mem demand"] ∧
      (Task.fix_queue_critical mgr reduceRaises speedUpRaises t fs now).raised = none ∧
      (Task.fix_queue_critical mgr reduceRaises speedUpRaises t fs now).task.status = Status.S_READY) ∧
    (mgr.ncpus_ok = false → mgr.mem_ok = false → reduceRaises = true →
      (Task.fix_queue_critical mgr reduceRaises speedUpRaises t fs now).trace =
        [.incNcpus, .incMem, .reduceMem,
         .setSt Status.S_ERROR "Memory error detected but the memory could not be increased neither could the\nmemory demand be decreased. Unrecoverable error."] ∧
      (Task.fix_queue_critical mgr reduceRaises speedUpRaises t fs now).raised =
        some "FixQueueCriticalError" ∧
      (Task.fix_queue_critical mgr reduceRaises speedUpRaises t fs now).task.status = Status.S_ERROR) := by
  have hfix : Task.fix_queue_critical mgr reduceRaises speedUpRaises t fs now =
      Task.fixLoop mgr reduceRaises speedUpRaises now t fs [] [QueueError.MemoryCancel] := by
    unfold Task.fix_queue_critical
    rw [if_neg (by simp [hq]), hq]
  refine ⟨?_, ?_, ?_, ?_⟩
  · intro hn
    obtain ⟨t1, fs1, hr1, hst1, hnr1, _, _, _, _⟩ := reset_from_scratch_ok t fs now hlock
    obtain ⟨r2, hr2, _, hst2, hnr2, _, _, _, _⟩ :=
      set_status_ok t1 Status.S_READY "increased ncps to solve memory problem" now
        (by rw [hst1]; simp) (by simp)
    rw [hfix]
    unfold Task.fixLoop
    dsimp only
    rw [hm]
    unfold Task.tryFix
    rw [if_pos rfl, if_pos (by rw [hn]), hr1]
    dsimp only
    rw [hr2]
    dsimp only
    exact ⟨rfl, rfl, hst2, by rw [hnr2, hnr1]⟩
  · intro hn hmem
    obtain ⟨t1, fs1, hr1, hst1, hnr1, _, _, _, _⟩ :=
      reset_from_scratch_ok
        { t with history := t.history ++ ["increasing ncpus failed"] } fs now
        (by simpa using hlock)
    obtain ⟨r2, hr2, _, hst2, hnr2, _, _, _, _⟩ :=
      set_status_ok t1 Status.S_READY "increased mem" now (by rw [hst1]; simp) (by simp)
    rw [hfix]
    unfold Task.fixLoop
    dsimp only
    rw [hm]
    unfold Task.tryFix
    rw [if_pos rfl, if_neg (by rw [hn]; simp)]
    dsimp only
    rw [if_pos (by rw [hmem]), hr1]
    dsimp only
    rw [hr2]
    dsimp only
    exact ⟨rfl, rfl, hst2, by rw [hnr2, hnr1]⟩
  · intro hn hmem hred
    obtain ⟨t1, fs1, hr1, hst1, hnr1, _, _, _, _⟩ :=
      reset_from_scratch_ok
        { t with history := (t.history ++ ["increasing ncpus failed"]) ++ ["increasing mem failed"] }
        fs now (by simpa using hlock)
    obtain ⟨r2, hr2, _, hst2, hnr2, _, _, _, _⟩ :=
      set_status_ok t1 Status.S_READY "decreased mem demand" now (by rw [hst1]; simp) (by simp)
    rw [hfix]
    unfold Task.fixLoop
    dsimp only
    rw [hm]
    unfold Task.tryFix
    rw [if_pos rfl, if_neg (by rw [hn]; simp)]
    dsimp only
    rw [if_neg (by rw [hmem]; simp)]
    dsimp only
    rw [if_pos (by rw [hred]; simp), hr1]
    dsimp only
    rw [hr2]
    dsimp only
    exact ⟨rfl, rfl, hst2⟩
  · intro hn hmem hred
    obtain ⟨r2, hr2, _, hst2, _, _, _, _, _⟩ :=
      set_status_ok
        { t with history := ((t.history ++ ["increasing ncpus failed"]) ++
            ["increasing mem failed"]) ++ ["decreasing demands failed"] }
        Status.S_ERROR
        "Memory error detected but the memory could not be increased neither could the\nmemory demand be decreased. Unrecoverable error."
        now (by simpa using hlock) (by simp)
    rw [hfix]
    unfold Task.fixLoop
    dsimp only
    rw [hm]
    unfold Task.tryFix
    rw [if_pos rfl, if_neg (by rw [hn]; simp)]
    dsimp only
    rw [if_neg (by rw [hmem]; simp)]
    dsimp only
    rw [if_neg (by rw [hred]; simp)]
    dsimp only
    rw [hr2]
    dsimp only
    exact ⟨rfl, rfl, hst2⟩

/-- Witness for C6, the P9 scenario: `increase_ncpus` raises, then
`increase_mem` succeeds; the task ends `S_READY` with `num_restarts`
incremented and the final recorded message "increased mem". -/
theorem c6_witness :
    (Task.fix_queue_critical
        { ncpus_ok := false, mem_ok := true, time_ok := false,
          resources_ok := false, exclude_ok := false } false false
        { status := Status.S_QCRITICAL, datetimes := { init := 0 },
          queue_errors := [QueueError.MemoryCancel] } {} 50).trace =
      [.incNcpus, .incMem, .reset, .setSt Status.S_READY "increased mem"] ∧
    (Task.fix_queue_critical
        { ncpus_ok := false, mem_ok := true, time_ok := false,
          resources_ok := false, exclude_ok := false } false false
        { status := Status.S_QCRITICAL, datetimes := { init := 0 },
          queue_errors := [QueueError.MemoryCancel] } {} 50).raised = none ∧
    (Task.fix_queue_critical
        { ncpus_ok := false, mem_ok := true, time_ok := false,
          resources_ok := false, exclude_ok := false } false false
        { status := Status.S_QCRITICAL, datetimes := { init := 0 },
          queue_errors := [QueueError.MemoryCancel] } {} 50).task.status = Status.S_READY ∧
    (Task.fix_queue_critical
        { ncpus_ok := false, mem_ok := true, time_ok := false,
          resources_ok := false, exclude_ok := false } false false
        { status := Status.S_QCRITICAL, datetimes := { init := 0 },
          queue_errors := [QueueError.MemoryCancel] } {} 50).task.num_restarts =
      ({ status := Status.S_QCRITICAL, datetimes := { init := 0 },
         queue_errors := [QueueError.MemoryCancel] } : Task).num_restarts + 1 :=
  (c6_memory_cancel_remediation _ false false _ {} 50 rfl rfl (by decide)).2.1 rfl rfl

end Abipy
